import Mathlib

/-!
Verification of the pure decision logic of the bot-barco-projecteur repository
(src/barco_bot.py) against its natural-language specification.

The Python source is shallowly embedded: text is modelled as `List Char`
(Python `str` methods `upper`, `strip`, `title`, substring tests and the
regular-expression steps of `extract_film_name` are implemented explicitly on
character lists), machine integers are `Nat`/`Int` (the pixel-offset arithmetic
`int((minutes / 60) * 67)` is exact on the relevant range, so it is embedded as
integer division), and the browser session is replaced by explicit data:
the scheduler's day-header row, the copy-modal calendar cells and the
success/failure of each driver action are inputs of the embedded functions.
-/

namespace Barco

/-! ## Character/string utilities (Python `str` semantics on ASCII text) -/

/-- Python `str.upper()` restricted to ASCII letters (all descriptor text in
the source is ASCII). -/
def pyUpper (l : List Char) : List Char := l.map (fun c => c.toUpper)

/-- Python whitespace test for `str.strip()` / `str.split()` (ASCII cases). -/
def isWs (c : Char) : Bool := c.isWhitespace

/-- Python `str.strip()`: drop leading and trailing whitespace. -/
def pyStrip (l : List Char) : List Char :=
  ((l.dropWhile isWs).reverse.dropWhile isWs).reverse

/-- Python `needle in hay` substring test. -/
def containsSub (hay needle : List Char) : Bool :=
  hay.tails.any (fun t => needle.isPrefixOf t)

/-- Whether a character is an ASCII letter (cased character for `str.title()`). -/
def isAlphaC (c : Char) : Bool := c.isAlpha

/-- Character class `[A-Za-z0-9]` of the leading-run regex. -/
def isAlnumC (c : Char) : Bool := c.isAlpha || c.isDigit

/-- Python `str.title()`: uppercase every letter that follows a non-letter,
lowercase every other letter. -/
def pyTitleAux : Bool → List Char → List Char
  | _, [] => []
  | prevAlpha, c :: cs =>
    (if isAlphaC c then (if prevAlpha then c.toLower else c.toUpper) else c)
      :: pyTitleAux (isAlphaC c) cs

/-- Python `str.title()` on a character list. -/
def pyTitle (l : List Char) : List Char := pyTitleAux false l

/-- Python `int(s)` wrapped in the source's `try/except` that falls back to 0:
a non-empty all-digit string parses as a decimal number, anything else gives 0. -/
def parseIntOr0 (l : List Char) : Nat :=
  if !l.isEmpty && l.all Char.isDigit then
    l.foldl (fun a c => a * 10 + (c.toNat - 48)) 0
  else 0

/-! ## FormatDetector — `detect_film_format` (barco_bot.py lines 278-296) -/

/-- `detect_film_format`: case-insensitive substring search on the film text,
`SCOPE`/`_S_`/`-S-` first, then `FLAT`/`_F_`/`-F-`, defaulting to scope. -/
def detect_film_format (film_text : List Char) : String :=
  let u := pyUpper film_text
  if containsSub u "SCOPE".data || containsSub u "_S_".data
      || containsSub u "-S-".data then "scope"
  else if containsSub u "FLAT".data || containsSub u "_F_".data
      || containsSub u "-F-".data then "flat"
  else "scope"

/-! ## ContentCandidateSelector — `select_qfc_from_usb` (lines 438-544) -/

/-- `has_volume` (line 438): volume marker 51 or 71 framed by `_`/`-`. -/
def has_volume (t : List Char) : Bool :=
  containsSub t "_51_".data || containsSub t "-51-".data
    || containsSub t "_51-".data || containsSub t "-51_".data
    || containsSub t "_71_".data || containsSub t "-71-".data
    || containsSub t "_71-".data || containsSub t "-71_".data

/-- `has_ccap_not_ocap` (line 443). -/
def has_ccap_not_ocap (t : List Char) : Bool :=
  containsSub t "CCAP".data && !(containsSub t "OCAP".data)

/-- `is_qfc` (line 447). -/
def is_qfc (t : List Char) : Bool := containsSub t "QFC".data

/-- `is_fr` (line 450). -/
def is_fr (t : List Char) : Bool :=
  containsSub t "_FR".data || containsSub t "-FR".data
    || containsSub t "FR-".data || containsSub t "_FR_".data

/-- The six selection tiers (priorités 1-6, lines 453-541), as predicates on
the raw item text; the source applies them to `item.text.upper()`. -/
def itemTier (k : Nat) (item : List Char) : Bool :=
  let t := pyUpper item
  match k with
  | 0 => is_qfc t && has_ccap_not_ocap t && has_volume t
  | 1 => is_fr t && has_ccap_not_ocap t && has_volume t
  | 2 => is_qfc t && has_volume t
  | 3 => is_fr t && has_volume t
  | 4 => is_qfc t
  | _ => is_fr t

/-- `select_qfc_from_usb` with no explicit film name: six sequential scans of
the whole item list, each returning the first item satisfying its tier;
`none` models the terminal "Aucun fichier QFC ou FR trouvé" failure. -/
def select_qfc_from_usb (items : List (List Char)) : Option (List Char) :=
  match items.find? (itemTier 0) with
  | some x => some x
  | none =>
  match items.find? (itemTier 1) with
  | some x => some x
  | none =>
  match items.find? (itemTier 2) with
  | some x => some x
  | none =>
  match items.find? (itemTier 3) with
  | some x => some x
  | none =>
  match items.find? (itemTier 4) with
  | some x => some x
  | none =>
  match items.find? (itemTier 5) with
  | some x => some x
  | none => none

/-! ## FilmNameExtractor — `extract_film_name` (lines 298-366) -/

/-- Separator class `[_-]` used by the stop patterns and the split. -/
def isSepC (c : Char) : Bool := c = '_' || c = '-'

/-- Case-insensitive character comparison (ASCII), for `re.IGNORECASE`. -/
def ciEq (a b : Char) : Bool := a.toLower == b.toLower

/-- Case-insensitive prefix test. -/
def ciMatchesAt : List Char → List Char → Bool
  | [], _ => true
  | _ :: _, [] => false
  | p :: ps, c :: cs => ciEq p c && ciMatchesAt ps cs

/-- Match of `[_-]WORD.*$` starting at the head of the suffix. -/
def matchSepWord (w : List Char) : List Char → Bool
  | c :: cs => isSepC c && ciMatchesAt w cs
  | [] => false

/-- Match of `[_-]\d+[_-].*$` starting at the head of the suffix. -/
def matchSepNumSep : List Char → Bool
  | c :: cs =>
    isSepC c &&
      (let ds := cs.takeWhile Char.isDigit
       !ds.isEmpty &&
         (match cs.drop ds.length with
          | d :: _ => isSepC d
          | [] => false))
  | [] => false

/-- Match of `[_-][SF][_-].*$` starting at the head of the suffix. -/
def matchSepSF : List Char → Bool
  | a :: b :: c :: _ =>
    isSepC a && (b.toLower == 's' || b.toLower == 'f') && isSepC c
  | _ => false

/-- Match of `[_-]\d{8}.*$` starting at the head of the suffix. -/
def matchSepDate8 : List Char → Bool
  | c :: cs => isSepC c && (cs.take 8).length == 8 && (cs.take 8).all Char.isDigit
  | [] => false

/-- Match of `[_-]\d+K.*$` starting at the head of the suffix. -/
def matchSepResK : List Char → Bool
  | c :: cs =>
    isSepC c &&
      (let ds := cs.takeWhile Char.isDigit
       !ds.isEmpty &&
         (match cs.drop ds.length with
          | k :: _ => k.toLower == 'k'
          | [] => false))
  | [] => false

/-- `re.sub(pattern, '', s)` for an end-anchored pattern: keep the prefix
before the leftmost position where the pattern matches. -/
def truncFirst (p : List Char → Bool) : List Char → List Char
  | [] => []
  | c :: cs => if p (c :: cs) then [] else c :: truncFirst p cs

/-- `re.sub(r'[_-]OV$', '', s, re.IGNORECASE)`: remove a trailing `_OV`/`-OV`. -/
def stripOVEnd (l : List Char) : List Char :=
  match l.reverse with
  | v :: o :: s :: _ =>
    if isSepC s && ciEq o 'O' && ciEq v 'V' then l.take (l.length - 3) else l
  | _ => l

/-- The thirteen `patterns_stop` substitutions of lines 333-351, applied in
the source's fixed order. -/
def stripPatterns (l : List Char) : List Char :=
  let l := truncFirst (matchSepWord "TLR".data) l
  let l := truncFirst (matchSepWord "FTR".data) l
  let l := truncFirst (matchSepWord "TSR".data) l
  let l := truncFirst (matchSepWord "QFC".data) l
  let l := truncFirst (matchSepWord "DCP".data) l
  let l := truncFirst matchSepNumSep l
  let l := truncFirst matchSepSF l
  let l := truncFirst (matchSepWord "SMPTE".data) l
  let l := truncFirst (matchSepWord "CCAP".data) l
  let l := truncFirst (matchSepWord "OCAP".data) l
  let l := stripOVEnd l
  let l := truncFirst matchSepDate8 l
  let l := truncFirst matchSepResK l
  l

/-- Lines 312-316: `strip()` then keep only the first line. -/
def firstLineOf (l : List Char) : List Char :=
  (pyStrip l).takeWhile (fun c => c ≠ '\n')

/-- Line 323: the leading `[A-Za-z0-9]+` run of the working text. -/
def leadingRun (l : List Char) : List Char := (firstLineOf l).takeWhile isAlnumC

/-- Line 354: `re.split(r'[_-]', film_name)[0]`, the segment before the first
separator (empty when the text starts with a separator). -/
def firstSeg (l : List Char) : List Char := l.takeWhile (fun c => !isSepC c)

/-- Line 360: separators replaced by spaces, then `strip()`. -/
def cleanedOf (l : List Char) : List Char :=
  pyStrip (l.map (fun c => if isSepC c then ' ' else c))

/-- `extract_film_name` (lines 298-366): leading alphanumeric run if it has
length at least 3; otherwise strip the stop patterns, take the segment before
the first separator if non-empty of length at least 2; otherwise title-case
the first whitespace word of the separator-cleaned text, or `"Film"`. -/
def extract_film_name (qfc_text : List Char) : List Char :=
  let text := firstLineOf qfc_text
  let run := text.takeWhile isAlnumC
  if 3 ≤ run.length then pyTitle run
  else
    let stripped := stripPatterns text
    let seg := firstSeg stripped
    if seg ≠ [] ∧ 2 ≤ seg.length then pyTitle seg
    else
      let cleaned := cleanedOf stripped
      if cleaned ≠ [] then
        pyTitle ((cleaned.dropWhile isWs).takeWhile (fun c => !isWs c))
      else "Film".data

/-- Spec-side notion for claim C6: the first non-empty segment of the
`[_-]`-split of the stripped text (the source instead takes the first segment,
empty or not). -/
def firstNonEmptySegSpec (l : List Char) : Option (List Char) :=
  (l.splitOnP isSepC).find? (fun s => !s.isEmpty)

/-! ## BlockNamer — `generate_block_name` (lines 368-382) -/

/-- Python `str.lower()` restricted to ASCII letters. -/
def pyLower (l : List Char) : List Char := l.map (fun c => c.toLower)

/-- `generate_block_name`: the block label is the room name, then `S` for
scope or `F` otherwise, then the film name, joined by `" - "`. -/
def generate_block_name (film_name : List Char) (format_type : List Char)
    (salle : List Char) : List Char :=
  let letter : List Char := if pyLower format_type = "scope".data then "S".data else "F".data
  salle ++ " - ".data ++ letter ++ " - ".data ++ film_name

/-! ## Calendar model

`schedule_seances` reads dates as `DD/MM/YYYY` text and compares them through
Python `datetime` objects; the scheduler UI shows one week of day headers and
the copy modal shows the day numbers of one month. Dates are embedded as
year/month/day triples ordered lexicographically, with Gregorian month
lengths for the real calendar the UI displays. -/

structure Date where
  year : Nat
  month : Nat
  day : Nat
deriving DecidableEq, Repr

/-- Gregorian leap-year rule. -/
def isLeap (y : Nat) : Bool := (y % 4 == 0 && y % 100 != 0) || y % 400 == 0

/-- Number of days of a month in the real calendar shown by the UI. -/
def daysInMonth (y m : Nat) : Nat :=
  if m = 2 then (if isLeap y then 29 else 28)
  else if m = 4 || m = 6 || m = 9 || m = 11 then 30
  else 31

/-- The day after a date in the real calendar. -/
def succDate (d : Date) : Date :=
  if d.day + 1 ≤ daysInMonth d.year d.month then ⟨d.year, d.month, d.day + 1⟩
  else if d.month + 1 ≤ 12 then ⟨d.year, d.month + 1, 1⟩
  else ⟨d.year + 1, 1, 1⟩

/-- Adding days in the real calendar. -/
def addDays (d : Date) : Nat → Date
  | 0 => d
  | n + 1 => succDate (addDays d n)

/-- `datetime` comparison `a <= b`: lexicographic on (year, month, day). -/
def dateLe (a b : Date) : Bool :=
  Nat.blt a.year b.year
    || (a.year == b.year
        && (Nat.blt a.month b.month
            || (a.month == b.month && Nat.ble a.day b.day)))

/-- Weekday, as the locale-independent meaning of the bilingual day-name
matching (`'vendredi'/'friday'/'ven'` etc., lines 1300 and 1340/1398). -/
inductive Weekday where
  | lundi | mardi | mercredi | jeudi | vendredi | samedi | dimanche
deriving DecidableEq, Repr

/-- One scheduler day header: the day name shown in `p.day` and the date shown
in `p.date`. -/
structure DayHeader where
  day : Weekday
  date : Date
deriving DecidableEq, Repr

/-- The weekday of the day at offset `k` of a scheduler week whose first
column is the anchor Friday. -/
def weekdayAt : Nat → Weekday
  | 0 => .vendredi
  | 1 => .samedi
  | 2 => .dimanche
  | 3 => .lundi
  | 4 => .mardi
  | 5 => .mercredi
  | _ => .jeudi

/-- The header row of the scheduler week starting at the anchor Friday. -/
def weekHeaders (anchor : Date) : List DayHeader :=
  (List.range 7).map (fun k => ⟨weekdayAt k, addDays anchor k⟩)

/-! ## WeeklySchedulePlanner — `schedule_seances` (lines 1188-1424) -/

/-- Time lookup by pattern (lines 1243-1263): evening hour/minutes and
matinee hour/minutes; any pattern other than `00`/`15`/`30` falls back to the
`00` row. Minutes are kept as the strings the source stores. -/
def timeLookup (minutes : String) : Nat × String × Nat × String :=
  if minutes = "00" then (18, "50", 12, "50")
  else if minutes = "15" then (19, "05", 13, "05")
  else if minutes = "30" then (19, "20", 13, "20")
  else (18, "50", 12, "50")

/-- Lines 1862-1866: the companion "Fermer lampe" end-marker time of a show
at (hour, minutes): two hours plus ten minutes later, the minute overflow
rolling into the hour. -/
def fermerTime (hour minutes_int : Nat) : Nat × Nat :=
  let fermer_minutes := minutes_int + 10
  let fermer_hour := hour + 2
  if 60 ≤ fermer_minutes then (fermer_hour + 1, fermer_minutes - 60)
  else (fermer_hour, fermer_minutes)

/-- Kind of a scheduled show: the 19h-block evening séance or the 13h-block
Saturday/Sunday matinee. -/
inductive SKind where
  | soir | apresMidi
deriving DecidableEq, Repr

/-- One `_add_seance_at_hour` invocation planned by `schedule_seances`:
a day (offset from the anchor Friday in the header row), a kind, and the
start hour/minutes. -/
structure Seance where
  dayOffset : Nat
  kind : SKind
  hour : Nat
  minuteStr : String
deriving DecidableEq, Repr

/-- Calendar events realized by one `_add_seance_at_hour` call. -/
inductive Event where
  | showEv (dayOffset hour minute : Nat)
  | fermerEv (dayOffset hour minute : Nat)
deriving DecidableEq, Repr

/-- Whether an event is a companion end-marker. -/
def isFermerEvent : Event → Bool
  | .fermerEv _ _ _ => true
  | _ => false

/-- The events `_add_seance_at_hour` produces (lines 1712-1944): the show
click on the `hour`-th of the 24 hour lines, then the end-marker click at
`fermerTime`, emitted only when its hour line exists. -/
def seanceEvents (s : Seance) : List Event :=
  if 24 ≤ s.hour then []
  else
    let m := parseIntOr0 s.minuteStr.data
    let f := fermerTime s.hour m
    if f.1 < 24 then [.showEv s.dayOffset s.hour m, .fermerEv s.dayOffset f.1 f.2]
    else [.showEv s.dayOffset s.hour m]

/-- Lines 1295-1314: scan of the day headers for the first Friday whose date
is at or after `date_debut` (when a start date is given). -/
def findVendrediAux (dateDebut : Option Date) : List DayHeader → Nat → Option Nat
  | [], _ => none
  | h :: t, i =>
    if h.day == Weekday.vendredi
        && (match dateDebut with
            | some dd => dateLe dd h.date
            | none => true)
    then some i
    else findVendrediAux dateDebut t (i + 1)

/-- Index of the anchor Friday in the header row. -/
def findVendrediIdx (headers : List DayHeader) (dateDebut : Option Date) : Option Nat :=
  findVendrediAux dateDebut headers 0

/-- Lines 1390-1411: scan of the day headers for the Saturday/Sunday matinee
placements, keeping only days inside `[date_debut, date_fin]`. -/
def matineeScan (dd df : Date) (ha : Nat) (ma : String) :
    List DayHeader → Nat → List Seance
  | [], _ => []
  | h :: t, i =>
    if (h.day == Weekday.samedi || h.day == Weekday.dimanche)
        && dateLe dd h.date && dateLe h.date df
    then ⟨i, .apresMidi, ha, ma⟩ :: matineeScan dd df ha ma t (i + 1)
    else matineeScan dd df ha ma t (i + 1)

/-- Lines 1362-1372: with a start date, the bulk-copy target day numbers are
computed by plain integer addition on its day of month — Saturday = day+1,
Sunday = day+2, Wednesday = day+5, Thursday = day+6 — with no month rollover. -/
def copyTargetNums (dateDebut : Date) : List Nat :=
  [dateDebut.day + 1, dateDebut.day + 2, dateDebut.day + 5, dateDebut.day + 6]

/-- The same four target days as offsets from the anchor Friday (`+1`, `+2`,
`+5`, `+6`). -/
def copyTargetOffsets : List Nat := [1, 2, 5, 6]

/-- The single bulk-copy instruction of a week plan: the anchor day is the
source and the four computed offsets/day numbers the targets. -/
structure CopyInstruction where
  sourceOffset : Nat
  targetOffsets : List Nat
  targetNums : List Nat
deriving DecidableEq, Repr

/-- A week plan: the show placements (the directly placed anchor evening, the
four evenings produced by duplicating it, and the matinees) together with the
bulk-copy instruction. -/
structure WeekPlan where
  placements : List Seance
  copy : CopyInstruction
deriving DecidableEq, Repr

/-- The week plan `schedule_seances(block, pattern, date_debut, date_fin)`
lays out under normal use: the scheduler shows the week of the anchor Friday,
`date_debut` is the anchor and `date_fin` the anchor plus six days. The
evening séance is placed on the Friday, duplicated to offsets `+1,+2,+5,+6`
by the bulk copy, and the matinee is added on the in-range Saturday and
Sunday; `none` models the terminal `SCH-003` "Vendredi non trouvé" failure. -/
def weekPlanOf (anchor : Date) (pattern : String) : Option WeekPlan :=
  let tl := timeLookup pattern
  let heure_soir := tl.1
  let minutes_soir := tl.2.1
  let heure_aprem := tl.2.2.1
  let minutes_aprem := tl.2.2.2
  let headers := weekHeaders anchor
  let dateFin := addDays anchor 6
  match findVendrediIdx headers (some anchor) with
  | none => none
  | some vi =>
    let evening : Seance := ⟨vi, .soir, heure_soir, minutes_soir⟩
    let copied := copyTargetOffsets.map
      (fun k => (⟨vi + k, .soir, heure_soir, minutes_soir⟩ : Seance))
    let mats := matineeScan anchor dateFin heure_aprem minutes_aprem headers 0
    some ⟨evening :: copied ++ mats, ⟨0, copyTargetOffsets, copyTargetNums anchor⟩⟩

/-! ## TimeSlotPositionMapper — the sub-hour click offsets of
`_add_seance_at_hour` (lines 1749-1776 and 1868-1873) -/

/-- Height of one hour line in pixels (line 1749). -/
def line_height : Nat := 67

/-- The `minutes_offset_map` lookup table (lines 1757-1765), keyed by the
two-digit minute strings. -/
def minutes_offset_map (s : String) : Option Int :=
  if s = "00" then some (-34)
  else if s = "05" then some (-28)
  else if s = "10" then some (-22)
  else if s = "15" then some (-17)
  else if s = "20" then some (-11)
  else if s = "30" then some 0
  else if s = "50" then some 22
  else none

/-- Sub-hour click offset of the show placement (lines 1768-1776): the table
when the minute string is a key, otherwise `int((minutes / 60) * 67) - 34`
(the float expression is exact enough that its truncation equals the integer
division for every minute below 60). -/
def clickOffsetY (minutes : String) : Int :=
  match minutes_offset_map minutes with
  | some v => v
  | none => Int.ofNat (parseIntOr0 minutes.data * line_height / 60) - 34

/-- Python `f"{n:02d}"` for the end-marker minute (line 1869). -/
def twoDigit (n : Nat) : String :=
  if n < 10 then "0" ++ Nat.repr n else Nat.repr n

/-- Sub-hour click offset of the companion end-marker (lines 1868-1873): the
same table on the two-digit minute string, otherwise `int((m / 60) * 67)` —
without the `- 34` centering of the show-placement fallback. -/
def fermerOffsetY (fermer_minutes : Nat) : Int :=
  match minutes_offset_map (twoDigit fermer_minutes) with
  | some v => v
  | none => Int.ofNat (fermer_minutes * line_height / 60)

/-! ## Bulk copy — `_copy_vendredi_to_days` (lines 1426-1553) -/

/-- One `td.day` cell of the copy-modal calendar: whether it is selectable
(not `old`/`new`/`notSelectable`/`source`) and its displayed text. -/
structure CalCell where
  selectable : Bool
  text : String
deriving DecidableEq, Repr

/-- Lines 1498-1522: for each intended target day number, the first
selectable calendar cell whose text equals `str(jour_num)` is clicked; the
list of target numbers actually found becomes `jours_trouves`. -/
def joursTrouves (cells : List CalCell) (target_jours_nums : List Nat) : List Nat :=
  target_jours_nums.filter
    (fun t => cells.any (fun c => c.selectable && c.text == Nat.repr t))

/-- Result of `_copy_vendredi_to_days` once the copy modal is open (lines
1498-1549): it fails (`CPY-005`, reported as the bulk-copy error) exactly when
`jours_trouves` is empty, and otherwise confirms and succeeds — even when
some intended targets were not found. -/
def copy_vendredi_to_days (cells : List CalCell) (target_jours_nums : List Nat) : Bool :=
  !(joursTrouves cells target_jours_nums).isEmpty

/-- The selectable day cells of the real month the copy modal displays:
day numbers 1 to `daysInMonth`. -/
def monthCalCells (y m : Nat) : List CalCell :=
  (List.range (daysInMonth y m)).map (fun k => ⟨true, Nat.repr (k + 1)⟩)

/-! ## Error propagation — `schedule_seances` step results and
`full_workflow_usb` (lines 1321-1418 and 2095-2150) -/

/-- One abstract driver action issued while executing the week plan. -/
inductive PlanAction where
  | placeShow (s : Seance)
  | bulkCopy (sourceIdx : Nat) (targetNums : List Nat)
deriving DecidableEq, Repr

/-- Execution of `schedule_seances` over a driver that reports success or
failure of each action. Mirroring lines 1321-1418: the Friday evening
placement failure (`SCH-004`), the bulk-copy failure (`SCH-005`) and each
matinee placement failure (`SCH-006`) are only logged — every following
action is still attempted and the function returns success; only a missing
Friday (`SCH-003`) aborts. Returns the attempted actions and the result. -/
def schedule_seances_exec (drv : PlanAction → Bool) (anchor : Date)
    (pattern : String) : Option (List PlanAction × Bool) :=
  let tl := timeLookup pattern
  let headers := weekHeaders anchor
  let dateFin := addDays anchor 6
  match findVendrediIdx headers (some anchor) with
  | none => none
  | some vi =>
    let a1 : PlanAction := .placeShow ⟨vi, .soir, tl.1, tl.2.1⟩
    let _r1 := drv a1
    let a2 : PlanAction := .bulkCopy vi (copyTargetNums anchor)
    let _r2 := drv a2
    let mats := (matineeScan anchor dateFin tl.2.2.1 tl.2.2.2 headers 0).map
      (fun s => PlanAction.placeShow s)
    let _rs := mats.map drv
    some (a1 :: a2 :: mats, true)

/-- `full_workflow_usb` (lines 2095-2150) as a function of its step results:
login, USB import (selection), session-editor navigation, block selection and
film replacement each abort the workflow on failure; the `schedule_seances`
result (line 2145) is computed but never examined, and the workflow then
reports success. -/
def full_workflow_usb (loginOk importOk navOk selectOk replaceOk schedOk : Bool) : Bool :=
  if !loginOk then false
  else if !importOk then false
  else if !navOk then false
  else if !selectOk then false
  else if !replaceOk then false
  else
    let _ := schedOk
    true

/-! ## Helper lemmas about the calendar model -/

theorem dateLe_iff (a b : Date) : dateLe a b = true ↔
    (a.year < b.year
      ∨ (a.year = b.year
        ∧ (a.month < b.month ∨ (a.month = b.month ∧ a.day ≤ b.day)))) := by
  simp [dateLe, Nat.blt_eq, Nat.ble_eq]

theorem dateLe_refl (a : Date) : dateLe a a = true := by
  rw [dateLe_iff]; omega

theorem dateLe_trans {a b c : Date} (h1 : dateLe a b = true)
    (h2 : dateLe b c = true) : dateLe a c = true := by
  rw [dateLe_iff] at *; omega

theorem dateLe_succDate (a : Date) : dateLe a (succDate a) = true := by
  obtain ⟨y, m, d⟩ := a
  unfold succDate
  split
  · rw [dateLe_iff]; dsimp only; omega
  split
  · rw [dateLe_iff]; dsimp only; omega
  · rw [dateLe_iff]; dsimp only; omega

theorem dateLe_addDays_left (a : Date) (n : Nat) :
    dateLe a (addDays a n) = true := by
  induction n with
  | zero => exact dateLe_refl a
  | succ k ih => exact dateLe_trans ih (dateLe_succDate (addDays a k))

theorem addDays_add (a : Date) (k j : Nat) :
    addDays a (k + j) = addDays (addDays a k) j := by
  induction j with
  | zero => rfl
  | succ i ih => simp [addDays, ← Nat.add_assoc, ih]

theorem dateLe_addDays_mono (a : Date) {k n : Nat} (h : k ≤ n) :
    dateLe (addDays a k) (addDays a n) = true := by
  have hn : n = k + (n - k) := by omega
  rw [hn, addDays_add]
  exact dateLe_addDays_left (addDays a k) (n - k)

theorem weekHeaders_eq (a : Date) : weekHeaders a =
    [⟨.vendredi, a⟩, ⟨.samedi, addDays a 1⟩, ⟨.dimanche, addDays a 2⟩,
     ⟨.lundi, addDays a 3⟩, ⟨.mardi, addDays a 4⟩, ⟨.mercredi, addDays a 5⟩,
     ⟨.jeudi, addDays a 6⟩] := rfl

theorem findVendrediIdx_week (a : Date) :
    findVendrediIdx (weekHeaders a) (some a) = some 0 := by
  show findVendrediAux (some a) (weekHeaders a) 0 = some 0
  rw [weekHeaders_eq, findVendrediAux]
  simp [dateLe_refl a]

theorem matineeScan_week (a : Date) (ha : Nat) (ma : String) :
    matineeScan a (addDays a 6) ha ma (weekHeaders a) 0 =
      [⟨1, .apresMidi, ha, ma⟩, ⟨2, .apresMidi, ha, ma⟩] := by
  have e1 : dateLe a (addDays a 1) = true := dateLe_addDays_left a 1
  have e2 : dateLe a (addDays a 2) = true := dateLe_addDays_left a 2
  have e16 : dateLe (addDays a 1) (addDays a 6) = true :=
    dateLe_addDays_mono a (by omega)
  have e26 : dateLe (addDays a 2) (addDays a 6) = true :=
    dateLe_addDays_mono a (by omega)
  rw [weekHeaders_eq]
  simp [matineeScan, e1, e2, e16, e26]

theorem timeLookup_cases (p : String) :
    timeLookup p = (18, "50", 12, "50")
      ∨ timeLookup p = (19, "05", 13, "05")
      ∨ timeLookup p = (19, "20", 13, "20") := by
  unfold timeLookup
  split
  · exact Or.inl rfl
  split
  · exact Or.inr (Or.inl rfl)
  split
  · exact Or.inr (Or.inr rfl)
  · exact Or.inl rfl

/-- The week plan of any anchor and pattern, fully evaluated. -/
theorem weekPlanOf_eq (a : Date) (p : String) :
    weekPlanOf a p = some
      ⟨[⟨0, .soir, (timeLookup p).1, (timeLookup p).2.1⟩,
        ⟨1, .soir, (timeLookup p).1, (timeLookup p).2.1⟩,
        ⟨2, .soir, (timeLookup p).1, (timeLookup p).2.1⟩,
        ⟨5, .soir, (timeLookup p).1, (timeLookup p).2.1⟩,
        ⟨6, .soir, (timeLookup p).1, (timeLookup p).2.1⟩,
        ⟨1, .apresMidi, (timeLookup p).2.2.1, (timeLookup p).2.2.2⟩,
        ⟨2, .apresMidi, (timeLookup p).2.2.1, (timeLookup p).2.2.2⟩],
       ⟨0, [1, 2, 5, 6], [a.day + 1, a.day + 2, a.day + 5, a.day + 6]⟩⟩ := by
  simp only [weekPlanOf, findVendrediIdx_week, matineeScan_week,
    copyTargetOffsets, copyTargetNums, List.map]
  rfl

/-! ## Claim theorems -/

/-- C4: the planner's time lookup is total in the pattern: `00` gives evening
18:50 and matinee 12:50, `15` gives 19:05/13:05, `30` gives 19:20/13:20, and
every other pattern value gives the same times as `00`. -/
theorem C4_time_lookup_total :
    timeLookup "00" = (18, "50", 12, "50")
    ∧ timeLookup "15" = (19, "05", 13, "05")
    ∧ timeLookup "30" = (19, "20", 13, "20")
    ∧ ∀ p : String, p ≠ "00" → p ≠ "15" → p ≠ "30" →
        timeLookup p = timeLookup "00" := by
  refine ⟨rfl, rfl, rfl, ?_⟩
  intro p h0 h1 h2
  simp [timeLookup, h0, h1, h2]

/-- Witness for C4 at the out-of-table pattern `45`. -/
theorem C4_time_lookup_total_witness :
    ("45" : String) ≠ "00" ∧ ("45" : String) ≠ "15" ∧ ("45" : String) ≠ "30"
    ∧ timeLookup "45" = timeLookup "00" :=
  ⟨by decide, by decide, by decide,
   C4_time_lookup_total.2.2.2 "45" (by decide) (by decide) (by decide)⟩

/-- C3: the companion end-marker of a show at (h, m) is at start plus 2h10m:
hour h+2 and minute m+10, with 60 subtracted from the minutes and one more
hour added exactly when m is at least 50; a show at 18:50 gets its end-marker
at 21:00, and the end-marker event of every placement carries this time. -/
theorem C3_end_marker_time :
    (∀ h m : Nat, m < 50 → fermerTime h m = (h + 2, m + 10))
    ∧ (∀ h m : Nat, 50 ≤ m → fermerTime h m = (h + 2 + 1, m + 10 - 60))
    ∧ fermerTime 18 50 = (21, 0)
    ∧ (∀ s : Seance, ∀ e ∈ seanceEvents s, isFermerEvent e = true →
        e = Event.fermerEv s.dayOffset
              (fermerTime s.hour (parseIntOr0 s.minuteStr.data)).1
              (fermerTime s.hour (parseIntOr0 s.minuteStr.data)).2) := by
  refine ⟨?_, ?_, by decide, ?_⟩
  · intro h m hm
    simp only [fermerTime]
    rw [if_neg (by omega)]
  · intro h m hm
    simp only [fermerTime]
    rw [if_pos (by omega)]
  · intro s e he hf
    simp only [seanceEvents] at he
    split at he
    · simp at he
    · split at he
      · simp only [List.mem_cons, List.not_mem_nil, or_false] at he
        rcases he with rfl | rfl
        · simp [isFermerEvent] at hf
        · rfl
      · simp only [List.mem_cons, List.not_mem_nil, or_false] at he
        subst he
        simp [isFermerEvent] at hf

/-- Witness for C3: a 19:20 show closes at 21:30, a 18:50 show at 21:00. -/
theorem C3_end_marker_time_witness :
    fermerTime 19 20 = (21, 30) ∧ fermerTime 18 50 = (21, 0) :=
  ⟨C3_end_marker_time.1 19 20 (by decide), C3_end_marker_time.2.2.1⟩

/-- C7: format detection is a case-insensitive substring search in fixed
order — scope markers first, then flat markers, defaulting to scope — and on
the three example descriptors it gives scope, flat, scope. -/
theorem C7_format_detection :
    (∀ t : List Char,
      (containsSub (pyUpper t) "SCOPE".data || containsSub (pyUpper t) "_S_".data
        || containsSub (pyUpper t) "-S-".data) = true →
      detect_film_format t = "scope")
    ∧ (∀ t : List Char,
      (containsSub (pyUpper t) "SCOPE".data || containsSub (pyUpper t) "_S_".data
        || containsSub (pyUpper t) "-S-".data) = false →
      (containsSub (pyUpper t) "FLAT".data || containsSub (pyUpper t) "_F_".data
        || containsSub (pyUpper t) "-F-".data) = true →
      detect_film_format t = "flat")
    ∧ (∀ t : List Char,
      (containsSub (pyUpper t) "SCOPE".data || containsSub (pyUpper t) "_S_".data
        || containsSub (pyUpper t) "-S-".data) = false →
      (containsSub (pyUpper t) "FLAT".data || containsSub (pyUpper t) "_F_".data
        || containsSub (pyUpper t) "-F-".data) = false →
      detect_film_format t = "scope")
    ∧ detect_film_format "ALPHA_SCOPE_QFC_2K".data = "scope"
    ∧ detect_film_format "ALPHA_FLAT_QFC_2K".data = "flat"
    ∧ detect_film_format "ALPHA_QFC_2K".data = "scope" := by
  refine ⟨?_, ?_, ?_, by decide, by decide, by decide⟩
  · intro t h
    simp only [detect_film_format]
    rw [if_pos h]
  · intro t h1 h2
    simp only [detect_film_format]
    rw [if_neg (by simp [h1]), if_pos h2]
  · intro t h1 h2
    simp only [detect_film_format]
    rw [if_neg (by simp [h1]), if_neg (by simp [h2])]

/-- Witness for C7 on the three example descriptors. -/
theorem C7_format_detection_witness :
    detect_film_format "ALPHA_SCOPE_QFC_2K".data = "scope"
    ∧ detect_film_format "ALPHA_FLAT_QFC_2K".data = "flat"
    ∧ detect_film_format "ALPHA_QFC_2K".data = "scope" :=
  ⟨C7_format_detection.1 "ALPHA_SCOPE_QFC_2K".data (by decide),
   C7_format_detection.2.1 "ALPHA_FLAT_QFC_2K".data (by decide) (by decide),
   C7_format_detection.2.2.1 "ALPHA_QFC_2K".data (by decide) (by decide)⟩

/-- For minutes below 60, `int(minutes)` of the two-digit rendering recovers
the value. -/
theorem parseIntOr0_twoDigit : ∀ m : Nat, m < 60 →
    parseIntOr0 (twoDigit m).data = m := by decide

/-- C5 counterexample: the minute value 25 is outside the lookup table; the
show-placement fallback applies the `-34` centering and gives `-7`, but the
end-marker fallback computes `int((25 / 60) * 67) = 27` without the centering
adjustment, so the claimed common interpolation formula fails for the
end-marker placement. -/
theorem C5_offset_interpolation_cex :
    minutes_offset_map "25" = none
    ∧ clickOffsetY "25" = Int.ofNat (25 * line_height / 60) - 34
    ∧ clickOffsetY "25" = -7
    ∧ fermerOffsetY 25 = 27
    ∧ fermerOffsetY 25 ≠ Int.ofNat (25 * line_height / 60) - 34 := by decide

/-- C5 (amended): table minutes map to the table constants in both paths;
for a minute below 60 outside the table, the show placement interpolates with
the `-34` centering while the end-marker placement interpolates without it. -/
theorem C5_offset_interpolation :
    (clickOffsetY "00" = -34 ∧ clickOffsetY "05" = -28 ∧ clickOffsetY "10" = -22
      ∧ clickOffsetY "15" = -17 ∧ clickOffsetY "20" = -11 ∧ clickOffsetY "30" = 0
      ∧ clickOffsetY "50" = 22)
    ∧ (fermerOffsetY 0 = -34 ∧ fermerOffsetY 5 = -28 ∧ fermerOffsetY 10 = -22
      ∧ fermerOffsetY 15 = -17 ∧ fermerOffsetY 20 = -11 ∧ fermerOffsetY 30 = 0
      ∧ fermerOffsetY 50 = 22)
    ∧ (∀ m : Nat, m < 60 → minutes_offset_map (twoDigit m) = none →
        clickOffsetY (twoDigit m) = Int.ofNat (m * line_height / 60) - 34
        ∧ fermerOffsetY m = Int.ofNat (m * line_height / 60)) := by
  refine ⟨by decide, by decide, ?_⟩
  intro m hm hnone
  constructor
  · simp only [clickOffsetY, hnone, parseIntOr0_twoDigit m hm]
  · simp only [fermerOffsetY, hnone]

/-- Witness for C5 (amended) at the out-of-table minute 25. -/
theorem C5_offset_interpolation_witness :
    clickOffsetY (twoDigit 25) = Int.ofNat (25 * line_height / 60) - 34
    ∧ fermerOffsetY 25 = Int.ofNat (25 * line_height / 60) :=
  C5_offset_interpolation.2.2 25 (by decide) (by decide)

/-- C9 counterexample: with a calendar offering only day 31, the copy of
targets [31, 32] selects only 31, target 32 is never selected, and the bulk
copy still reports success — so it does not fail whenever it could not select
all intended target days. -/
theorem C9_bulk_copy_cex :
    copy_vendredi_to_days [⟨true, "31"⟩] [31, 32] = true
    ∧ joursTrouves [⟨true, "31"⟩] [31, 32] = [31]
    ∧ 32 ∈ [31, 32]
    ∧ 32 ∉ joursTrouves [⟨true, "31"⟩] [31, 32] := by decide

/-- C9 (amended): the bulk copy reports success exactly when at least one
intended target day was selected in the copy calendar; it fails only when
none of them was. -/
theorem C9_bulk_copy_success_iff (cells : List CalCell) (targets : List Nat) :
    copy_vendredi_to_days cells targets = true ↔
      ∃ t ∈ targets, ∃ c ∈ cells, c.selectable = true ∧ c.text = Nat.repr t := by
  simp [copy_vendredi_to_days, joursTrouves, List.isEmpty_iff,
    List.filter_eq_nil_iff, List.any_eq_true]

/-- Every month of the displayed calendar has at most 31 days. -/
theorem daysInMonth_le_31 (y m : Nat) : daysInMonth y m ≤ 31 := by
  unfold daysInMonth
  split
  · split <;> omega
  · split <;> omega

/-- Decimal renderings of distinct numbers below 38 differ. -/
theorem repr_ne_of_ne_lt38 : ∀ c, c < 38 → ∀ t, t < 38 → c ≠ t →
    Nat.repr c ≠ Nat.repr t := by decide

/-- C10: with a start date, the four bulk-copy targets are the anchor's
day-of-month plus 1, 2, 5 and 6 with no month rollover, matched in the copy
calendar by the rendering of that number; so whenever the anchor lies within
six days of the end of its month, the day+6 target exceeds the last day of
the month, matches no selectable cell of the month calendar, and is never
selected. -/
theorem C10_copy_targets_month_end (y m d : Nat) (h1 : 1 ≤ d)
    (h2 : d ≤ daysInMonth y m) (h3 : daysInMonth y m < d + 6) :
    copyTargetNums ⟨y, m, d⟩ = [d + 1, d + 2, d + 5, d + 6]
    ∧ (d + 6) ∈ copyTargetNums ⟨y, m, d⟩
    ∧ daysInMonth y m < d + 6
    ∧ (∀ c ∈ monthCalCells y m, ¬(c.selectable = true ∧ c.text = Nat.repr (d + 6)))
    ∧ (d + 6) ∉ joursTrouves (monthCalCells y m) (copyTargetNums ⟨y, m, d⟩) := by
  have hL : daysInMonth y m ≤ 31 := daysInMonth_le_31 y m
  have hcells : ∀ c ∈ monthCalCells y m,
      ¬(c.selectable = true ∧ c.text = Nat.repr (d + 6)) := by
    intro c hc
    simp only [monthCalCells, List.mem_map, List.mem_range] at hc
    obtain ⟨k, hk, rfl⟩ := hc
    intro hcontra
    exact repr_ne_of_ne_lt38 (k + 1) (by omega) (d + 6) (by omega)
      (by omega) hcontra.2
  refine ⟨rfl, by simp [copyTargetNums], h3, hcells, ?_⟩
  intro hmem
  simp only [joursTrouves, List.mem_filter, List.any_eq_true, Bool.and_eq_true,
    beq_iff_eq] at hmem
  obtain ⟨-, c, hc, hsel, htext⟩ := hmem
  exact hcells c hc ⟨hsel, htext⟩

/-- Witness for C10 at 30 September 2025 (a 30-day month): the computed
targets are 31, 32, 35, 36 and target 36 matches no cell. -/
theorem C10_copy_targets_month_end_witness :
    copyTargetNums ⟨2025, 9, 30⟩ = [30 + 1, 30 + 2, 30 + 5, 30 + 6]
    ∧ (30 + 6) ∈ copyTargetNums ⟨2025, 9, 30⟩
    ∧ daysInMonth 2025 9 < 30 + 6
    ∧ (∀ c ∈ monthCalCells 2025 9,
        ¬(c.selectable = true ∧ c.text = Nat.repr (30 + 6)))
    ∧ (30 + 6) ∉ joursTrouves (monthCalCells 2025 9) (copyTargetNums ⟨2025, 9, 30⟩) :=
  C10_copy_targets_month_end 2025 9 30 (by decide) (by decide) (by decide)

/-- C1: for every anchor date and time pattern the week plan has exactly five
evening placements at offsets 0, 1, 2, 5, 6 and exactly two matinee
placements at offsets 1, 2; every placement realizes exactly one companion
end-marker event; and the single copy instruction has the anchor day as
source and exactly the offsets 1, 2, 5, 6 as targets. -/
theorem C1_week_plan_shape (anchor : Date) (pattern : String) :
    ∃ wp, weekPlanOf anchor pattern = some wp
      ∧ (wp.placements.filter (fun s => s.kind == SKind.soir)).map
          (fun s => s.dayOffset) = [0, 1, 2, 5, 6]
      ∧ (wp.placements.filter (fun s => s.kind == SKind.apresMidi)).map
          (fun s => s.dayOffset) = [1, 2]
      ∧ (∀ p ∈ wp.placements, ((seanceEvents p).filter isFermerEvent).length = 1)
      ∧ wp.copy.sourceOffset = 0
      ∧ wp.copy.targetOffsets = [1, 2, 5, 6] := by
  obtain h | h | h := timeLookup_cases pattern <;>
    (refine ⟨_, weekPlanOf_eq anchor pattern, ?_, ?_, ?_, rfl, rfl⟩ <;> rw [h] <;>
      first
      | rfl
      | (intro p hp
         simp only [List.mem_cons, List.not_mem_nil, or_false] at hp
         rcases hp with rfl | rfl | rfl | rfl | rfl | rfl | rfl <;> decide))

/-- C8: a failed show placement or bulk copy inside `schedule_seances` does
not change which driver actions are attempted (every planned placement is
still issued) nor the scheduler result; and the overall workflow result only
depends on the mandatory earlier steps, so it reports success even when the
whole scheduling step failed. -/
theorem C8_nonfatal_scheduling :
    (∀ (drv drv2 : PlanAction → Bool) (anchor : Date) (pattern : String),
        schedule_seances_exec drv anchor pattern
          = schedule_seances_exec drv2 anchor pattern)
    ∧ (∀ (drv : PlanAction → Bool) (anchor : Date) (pattern : String),
        schedule_seances_exec drv anchor pattern = some
          ([PlanAction.placeShow ⟨0, .soir, (timeLookup pattern).1, (timeLookup pattern).2.1⟩,
            PlanAction.bulkCopy 0 (copyTargetNums anchor),
            PlanAction.placeShow ⟨1, .apresMidi, (timeLookup pattern).2.2.1, (timeLookup pattern).2.2.2⟩,
            PlanAction.placeShow ⟨2, .apresMidi, (timeLookup pattern).2.2.1, (timeLookup pattern).2.2.2⟩],
           true))
    ∧ (∀ l i n sel rep sd sd2 : Bool,
        full_workflow_usb l i n sel rep sd = full_workflow_usb l i n sel rep sd2)
    ∧ (∀ l i n sel rep sd : Bool,
        full_workflow_usb l i n sel rep sd = (l && i && n && sel && rep))
    ∧ full_workflow_usb true true true true true false = true := by
  refine ⟨?_, ?_, by decide, by decide, by decide⟩
  · intro drv drv2 anchor pattern
    rfl
  · intro drv anchor pattern
    simp only [schedule_seances_exec, findVendrediIdx_week, matineeScan_week,
      List.map]

/-- A successful `find?` splits the list at the first satisfying element. -/
theorem find?_first_decomp {α : Type} (p : α → Bool) :
    ∀ (l : List α) (y : α), l.find? p = some y →
      ∃ l1 l2, l = l1 ++ y :: l2 ∧ (∀ x ∈ l1, p x = false) ∧ p y = true := by
  intro l
  induction l with
  | nil => intro y h; exact absurd h (by simp)
  | cons a t ih =>
    intro y h
    by_cases hpa : p a = true
    · rw [List.find?_cons_of_pos _ hpa] at h
      have hy : some a = some y := h
      cases hy
      exact ⟨[], t, rfl, by simp, hpa⟩
    · have hpa2 : p a = false := eq_false_of_ne_true hpa
      rw [List.find?_cons_of_neg _ (by simp [hpa2])] at h
      obtain ⟨l1, l2, rfl, hl1, hpy⟩ := ih y h
      refine ⟨a :: l1, l2, rfl, ?_, hpy⟩
      intro x hx
      rcases List.mem_cons.mp hx with rfl | hx2
      · exact hpa2
      · exact hl1 x hx2

/-- C2: with no explicit title, the selector evaluates the six tiers in
strict order and returns the first descriptor of the earliest satisfied tier,
scanning the whole list top-to-bottom within each tier; on the pair of a
tier-5-only item listed first and a tier-1 item listed second it returns the
tier-1 item, and it fails when no descriptor satisfies any tier. -/
theorem C2_tier_order_selection :
    (∀ (items : List (List Char)) (y : List Char),
        select_qfc_from_usb items = some y ↔
          ∃ k, k < 6 ∧ (∀ j, j < k → items.find? (itemTier j) = none)
            ∧ items.find? (itemTier k) = some y)
    ∧ (∀ items : List (List Char),
        select_qfc_from_usb items = none ↔
          ∀ k, k < 6 → ∀ x ∈ items, itemTier k x = false)
    ∧ (∀ (items : List (List Char)) (y : List Char) (k : Nat),
        items.find? (itemTier k) = some y →
        ∃ l1 l2, items = l1 ++ y :: l2 ∧ (∀ x ∈ l1, itemTier k x = false)
          ∧ itemTier k y = true)
    ∧ itemTier 4 "OLDFILM_QFC_OCAP_2K".data = true
    ∧ (∀ j, j < 4 → itemTier j "OLDFILM_QFC_OCAP_2K".data = false)
    ∧ itemTier 0 "NEWFILM_QFC-CCAP_CA_51_4K".data = true
    ∧ select_qfc_from_usb
        ["OLDFILM_QFC_OCAP_2K".data, "NEWFILM_QFC-CCAP_CA_51_4K".data]
        = some "NEWFILM_QFC-CCAP_CA_51_4K".data
    ∧ select_qfc_from_usb ["PLAINFILM_2K".data] = none := by
  refine ⟨?_, ?_, ?_, by decide, by decide, by decide, by decide, by decide⟩
  · intro items y
    constructor
    · intro h
      unfold select_qfc_from_usb at h
      cases h0 : items.find? (itemTier 0) with
      | some x =>
        rw [h0] at h
        have hy : some x = some y := h
        cases hy
        exact ⟨0, by omega, fun j hj => by omega, h0⟩
      | none =>
      rw [h0] at h
      cases h1 : items.find? (itemTier 1) with
      | some x =>
        rw [h1] at h
        have hy : some x = some y := h
        cases hy
        refine ⟨1, by omega, ?_, h1⟩
        intro j hj
        interval_cases j
        exact h0
      | none =>
      rw [h1] at h
      cases h2 : items.find? (itemTier 2) with
      | some x =>
        rw [h2] at h
        have hy : some x = some y := h
        cases hy
        refine ⟨2, by omega, ?_, h2⟩
        intro j hj
        interval_cases j
        · exact h0
        · exact h1
      | none =>
      rw [h2] at h
      cases h3 : items.find? (itemTier 3) with
      | some x =>
        rw [h3] at h
        have hy : some x = some y := h
        cases hy
        refine ⟨3, by omega, ?_, h3⟩
        intro j hj
        interval_cases j
        · exact h0
        · exact h1
        · exact h2
      | none =>
      rw [h3] at h
      cases h4 : items.find? (itemTier 4) with
      | some x =>
        rw [h4] at h
        have hy : some x = some y := h
        cases hy
        refine ⟨4, by omega, ?_, h4⟩
        intro j hj
        interval_cases j
        · exact h0
        · exact h1
        · exact h2
        · exact h3
      | none =>
      rw [h4] at h
      cases h5 : items.find? (itemTier 5) with
      | some x =>
        rw [h5] at h
        have hy : some x = some y := h
        cases hy
        refine ⟨5, by omega, ?_, h5⟩
        intro j hj
        interval_cases j
        · exact h0
        · exact h1
        · exact h2
        · exact h3
        · exact h4
      | none =>
        rw [h5] at h
        exact Option.noConfusion h
    · rintro ⟨k, hk, hprev, hfind⟩
      interval_cases k
      · unfold select_qfc_from_usb
        rw [hfind]
      · unfold select_qfc_from_usb
        rw [hprev 0 (by omega), hfind]
      · unfold select_qfc_from_usb
        rw [hprev 0 (by omega), hprev 1 (by omega), hfind]
      · unfold select_qfc_from_usb
        rw [hprev 0 (by omega), hprev 1 (by omega), hprev 2 (by omega), hfind]
      · unfold select_qfc_from_usb
        rw [hprev 0 (by omega), hprev 1 (by omega), hprev 2 (by omega),
          hprev 3 (by omega), hfind]
      · unfold select_qfc_from_usb
        rw [hprev 0 (by omega), hprev 1 (by omega), hprev 2 (by omega),
          hprev 3 (by omega), hprev 4 (by omega), hfind]
  · intro items
    constructor
    · intro h
      have step : ∀ k, k < 6 → items.find? (itemTier k) = none := by
        intro k hk
        by_contra hne
        cases hf : items.find? (itemTier k) with
        | none => exact hne hf
        | some x =>
          unfold select_qfc_from_usb at h
          cases h0 : items.find? (itemTier 0) with
          | some z => rw [h0] at h; exact Option.noConfusion h
          | none =>
          rw [h0] at h
          cases h1 : items.find? (itemTier 1) with
          | some z => rw [h1] at h; exact Option.noConfusion h
          | none =>
          rw [h1] at h
          cases h2 : items.find? (itemTier 2) with
          | some z => rw [h2] at h; exact Option.noConfusion h
          | none =>
          rw [h2] at h
          cases h3 : items.find? (itemTier 3) with
          | some z => rw [h3] at h; exact Option.noConfusion h
          | none =>
          rw [h3] at h
          cases h4 : items.find? (itemTier 4) with
          | some z => rw [h4] at h; exact Option.noConfusion h
          | none =>
          rw [h4] at h
          cases h5 : items.find? (itemTier 5) with
          | some z => rw [h5] at h; exact Option.noConfusion h
          | none =>
          interval_cases k
          · rw [h0] at hf; exact Option.noConfusion hf
          · rw [h1] at hf; exact Option.noConfusion hf
          · rw [h2] at hf; exact Option.noConfusion hf
          · rw [h3] at hf; exact Option.noConfusion hf
          · rw [h4] at hf; exact Option.noConfusion hf
          · rw [h5] at hf; exact Option.noConfusion hf
      intro k hk x hx
      exact eq_false_of_ne_true (List.find?_eq_none.mp (step k hk) x hx)
    · intro h
      have step : ∀ k, k < 6 → items.find? (itemTier k) = none := by
        intro k hk
        refine List.find?_eq_none.mpr ?_
        intro x hx
        rw [h k hk x hx]
        simp
      unfold select_qfc_from_usb
      rw [step 0 (by omega), step 1 (by omega), step 2 (by omega),
        step 3 (by omega), step 4 (by omega), step 5 (by omega)]
  · intro items y k hfind
    exact find?_first_decomp (itemTier k) items y hfind

/-- Witness for C2: on the two-item example list, the earliest satisfied tier
is tier 1 (index 0) and the selector indeed yields the tier-1 item. -/
theorem C2_tier_order_selection_witness :
    select_qfc_from_usb
        ["OLDFILM_QFC_OCAP_2K".data, "NEWFILM_QFC-CCAP_CA_51_4K".data]
      = some "NEWFILM_QFC-CCAP_CA_51_4K".data :=
  (C2_tier_order_selection.1
      ["OLDFILM_QFC_OCAP_2K".data, "NEWFILM_QFC-CCAP_CA_51_4K".data]
      "NEWFILM_QFC-CCAP_CA_51_4K".data).mpr
    ⟨0, by omega, fun j hj => by omega, by decide⟩

/-- C6 counterexample: on `"_a b_cd"` the leading alphanumeric run is empty,
the stripped remainder's first non-empty `[_-]`-segment is `"a b"` of length
3, whose title-casing is `"A B"`; but the extractor returns `"A"`, because the
source takes the plain first segment (here empty) and falls through to the
first-word fallback — it does not take the first non-empty segment. -/
theorem C6_film_name_cex :
    (leadingRun "_a b_cd".data).length < 3
    ∧ firstNonEmptySegSpec (stripPatterns (firstLineOf "_a b_cd".data))
        = some "a b".data
    ∧ 2 ≤ ("a b".data).length
    ∧ pyTitle "a b".data = "A B".data
    ∧ extract_film_name "_a b_cd".data = "A".data
    ∧ extract_film_name "_a b_cd".data ≠ pyTitle "a b".data := by decide

/-- C6 (amended): on the first line of the stripped input, a leading
alphanumeric run of length at least 3 is title-cased and returned; otherwise
the trailing technical-code patterns are stripped in fixed order and the
segment of the remainder before the first separator is title-cased and
returned when it is non-empty of length at least 2; otherwise the first word
of the separator-cleaned remainder is title-cased, or `"Film"` is returned
when nothing remains; and the extractor maps the Mercy descriptor to
`"Mercy"`. -/
theorem C6_film_name_extraction :
    (∀ t : List Char, 3 ≤ (leadingRun t).length →
        extract_film_name t = pyTitle (leadingRun t))
    ∧ (∀ t : List Char, ¬ 3 ≤ (leadingRun t).length →
        firstSeg (stripPatterns (firstLineOf t)) ≠ [] →
        2 ≤ (firstSeg (stripPatterns (firstLineOf t))).length →
        extract_film_name t = pyTitle (firstSeg (stripPatterns (firstLineOf t))))
    ∧ (∀ t : List Char, ¬ 3 ≤ (leadingRun t).length →
        ¬(firstSeg (stripPatterns (firstLineOf t)) ≠ []
          ∧ 2 ≤ (firstSeg (stripPatterns (firstLineOf t))).length) →
        cleanedOf (stripPatterns (firstLineOf t)) ≠ [] →
        extract_film_name t =
          pyTitle (((cleanedOf (stripPatterns (firstLineOf t))).dropWhile isWs).takeWhile
            (fun c => !isWs c)))
    ∧ (∀ t : List Char, ¬ 3 ≤ (leadingRun t).length →
        ¬(firstSeg (stripPatterns (firstLineOf t)) ≠ []
          ∧ 2 ≤ (firstSeg (stripPatterns (firstLineOf t))).length) →
        cleanedOf (stripPatterns (firstLineOf t)) = [] →
        extract_film_name t = "Film".data)
    ∧ extract_film_name
        "Mercy_TLR-1-IMMINA_S_QFC-QFC-CCAP_CA_51_4K_MGM_20251001_DLX_SMPTE_OV".data
        = "Mercy".data := by
  refine ⟨?_, ?_, ?_, ?_, by decide⟩
  · intro t h
    simp only [extract_film_name, leadingRun] at *
    rw [if_pos h]
  · intro t h hne hlen
    simp only [extract_film_name, leadingRun, firstSeg, firstLineOf] at *
    rw [if_neg h, if_pos ⟨hne, hlen⟩]
  · intro t h hseg hcl
    simp only [extract_film_name, leadingRun, firstSeg, cleanedOf, firstLineOf] at *
    rw [if_neg h, if_neg hseg, if_pos hcl]
  · intro t h hseg hcl
    simp only [extract_film_name, leadingRun, firstSeg, cleanedOf, firstLineOf] at *
    rw [if_neg h, if_neg hseg, if_neg (by simpa using hcl)]

/-- Witness for C6 (amended) on the Mercy descriptor, whose leading run
`"Mercy"` has length 5. -/
theorem C6_film_name_extraction_witness :
    extract_film_name
        "Mercy_TLR-1-IMMINA_S_QFC-QFC-CCAP_CA_51_4K_MGM_20251001_DLX_SMPTE_OV".data
      = pyTitle (leadingRun
          "Mercy_TLR-1-IMMINA_S_QFC-QFC-CCAP_CA_51_4K_MGM_20251001_DLX_SMPTE_OV".data) :=
  C6_film_name_extraction.1
    "Mercy_TLR-1-IMMINA_S_QFC-QFC-CCAP_CA_51_4K_MGM_20251001_DLX_SMPTE_OV".data
    (by decide)

/-- Witness for C1 at the anchor Friday 5 September 2025 and pattern `00`. -/
theorem C1_week_plan_shape_witness :
    ∃ wp, weekPlanOf ⟨2025, 9, 5⟩ "00" = some wp
      ∧ (wp.placements.filter (fun s => s.kind == SKind.soir)).map
          (fun s => s.dayOffset) = [0, 1, 2, 5, 6]
      ∧ (wp.placements.filter (fun s => s.kind == SKind.apresMidi)).map
          (fun s => s.dayOffset) = [1, 2]
      ∧ (∀ p ∈ wp.placements, ((seanceEvents p).filter isFermerEvent).length = 1)
      ∧ wp.copy.sourceOffset = 0
      ∧ wp.copy.targetOffsets = [1, 2, 5, 6] :=
  C1_week_plan_shape ⟨2025, 9, 5⟩ "00"

/-- Witness for C8: the workflow succeeds with all mandatory steps green and
the scheduling step failed. -/
theorem C8_nonfatal_scheduling_witness :
    full_workflow_usb true true true true true false
      = (true && true && true && true && true) :=
  C8_nonfatal_scheduling.2.2.2.1 true true true true true false

/-- Witness for C9 (amended) on a one-cell calendar and one target. -/
theorem C9_bulk_copy_success_iff_witness :
    copy_vendredi_to_days [⟨true, "31"⟩] [31] = true ↔
      ∃ t ∈ [31], ∃ c ∈ [(⟨true, "31"⟩ : CalCell)],
        c.selectable = true ∧ c.text = Nat.repr t :=
  C9_bulk_copy_success_iff [⟨true, "31"⟩] [31]

end Barco
